import Mathlib

/-!
Shallow embedding of the identity/credential core of the `api-server`
repository (src/error.rs, src/secure/hash_pass.rs, src/secure/guards/mod.rs,
src/db/mod.rs, src/models/mod.rs), together with theorems settling the
specification claims about it.

External collaborators (the `argon2` crate, `sqlx`/SQLite, the `http`
header map, `std` IP-address parsing) are modelled by executable Lean
functions that reproduce the interface behaviour the repository relies on;
each such model carries a doc comment describing the idealisation.
-/

namespace ApiServer

/-! ## Model of the external `argon2` crate -/

/-- Model of `argon2::Error`: only the variants this development can reach.
`SaltTooShort` is produced by `hash_encoded` when the salt is shorter than
the crate's minimum of 8; `DecodingFail` is produced by `verify_encoded`
on a malformed encoded hash. -/
inductive Argon2Err where
  | SaltTooShort
  | DecodingFail
  deriving DecidableEq, Repr

/-- The fields of `argon2::Config` that the repository sets in
`hash_password` (variant and version are fixed to Argon2id / 0x13 and are
rendered into the encoded header). -/
structure Argon2Config where
  memCost : Nat
  timeCost : Nat
  lanes : Nat
  hashLength : Nat
  deriving DecidableEq, Repr

/-- Idealised digest of the Argon2 primitive: the model replaces the
one-way compression function by an injective pairing of password and salt.
No verified property depends on one-wayness or on the cost parameters,
only on the equality structure of verification (equal password and salt
give an equal digest; a different password gives a different digest). -/
def argon2Digest (password salt : String) : String :=
  password ++ "$" ++ salt

/-- The self-describing header of an encoded hash, carrying the algorithm
identifier, version and cost parameters, as `argon2::hash_encoded`
renders them: `$argon2id$v=19$m=..,t=..,p=..$`. -/
def argon2Header (config : Argon2Config) : String :=
  "$argon2id$v=19$m=" ++ Nat.repr config.memCost ++ ",t=" ++
    Nat.repr config.timeCost ++ ",p=" ++ Nat.repr config.lanes ++ "$"

/-- Unary length marker for the embedded salt. (The real crate uses
base64; the model uses a length-prefixed raw salt, which is equally
self-describing and keeps decoding provably exact.) -/
def saltMark (n : Nat) : String :=
  ⟨List.replicate n 'x'⟩

/-- The encoded hash: header, salt length marker, raw salt, digest. -/
def encodedHash (password salt : String) (config : Argon2Config) : String :=
  argon2Header config ++ saltMark salt.length ++ "$" ++ salt ++ "$" ++
    argon2Digest password salt

/-- Model of `argon2::hash_encoded`: rejects a salt shorter than the
crate's `MIN_SALT_LENGTH` (8), otherwise produces the self-describing
encoded hash. -/
def hash_encoded (password salt : String) (config : Argon2Config) :
    Except Argon2Err String :=
  if salt.length < 8 then .error .SaltTooShort
  else .ok (encodedHash password salt config)

/-- Drop characters up to and including the n-th dollar sign. -/
def dropSegs : Nat → List Char → Option (List Char)
  | 0, cs => some cs
  | _ + 1, [] => none
  | n + 1, c :: cs => if c = '$' then dropSegs n cs else dropSegs (n + 1) cs

/-- Read the unary salt-length marker. -/
def readMark : List Char → Nat × List Char
  | [] => (0, [])
  | c :: cs =>
    if c = 'x' then ((readMark cs).1 + 1, (readMark cs).2) else (0, c :: cs)

/-- Recover the embedded salt and digest from an encoded hash; `none` on a
malformed input. -/
def splitEncoded (hash : String) : Option (String × String) :=
  match dropSegs 4 hash.data with
  | none => none
  | some rest =>
    match readMark rest with
    | (n, '$' :: rest2) =>
      match rest2.drop n with
      | '$' :: dig => some (⟨rest2.take n⟩, ⟨dig⟩)
      | _ => none
    | _ => none

/-- Model of `argon2::verify_encoded`: decode the salt embedded in the
encoded hash, recompute the digest for the candidate password, compare.
A malformed encoded hash is an error, a digest mismatch is a clean
`false`. -/
def verify_encoded (hash password : String) : Except Argon2Err Bool :=
  match splitEncoded hash with
  | none => .error .DecodingFail
  | some (salt, dig) => .ok (dig == argon2Digest password salt)

/-! ## Model of `sqlx::error::Error` -/

/-- Model of `sqlx::error::Error`: `uniqueViolation` is the database-side
rejection of an INSERT by the `user_id` primary-key constraint; `other`
stands for any other driver error. -/
inductive SqlxError where
  | uniqueViolation
  | other (msg : String)
  deriving DecidableEq, Repr

/-! ## `Error` (src/error.rs) -/

/-- The `Error` enum of src/error.rs. Variants whose payloads come from
foreign crates are carried as plain strings or dropped (`RocketError`,
`LoggingError`); `IoError` models the `Io` variant. -/
inductive Error where
  | PoolError (e : SqlxError)
  | FormatError (msg : String)
  | RocketError
  | LoggingError
  | Argon2Error (e : Argon2Err)
  | PasswordHashError
  | UnauthenticatedUser
  | ForbiddenAccess
  | NotFound (what : String)
  | UnknownRoute
  | BadRequest (msg : String)
  | InvalidResult (msg : String)
  | InternalError
  | UserConflict
  | TooManyRequests
  | ConfigurationError
  | AppConfigurationError
  | DatabaseNotConfigured
  | ConfigFileNotFound
  | EmptyDBUrl
  | Config (msg : String)
  | IoError (msg : String)
  | Unknown
  deriving DecidableEq, Repr

/-- `Error::to_status` (src/error.rs): the HTTP status code for each
error, as a numeric code. -/
def Error.to_status : Error → Nat
  | .UnauthenticatedUser => 401
  | .ForbiddenAccess => 403
  | .BadRequest _ | .InvalidResult _ | .UserConflict => 400
  | .NotFound _ | .UnknownRoute => 404
  | .TooManyRequests => 429
  | _ => 500

/-! ## Password hashing (src/secure/hash_pass.rs) -/

/-- The fixed `Config` built inside `hash_password`: memory cost 65536,
time cost 10, 4 lanes, hash length 32. -/
def passConfig : Argon2Config :=
  { memCost := 65536, timeCost := 10, lanes := 4, hashLength := 32 }

/-- `hash_password` (src/secure/hash_pass.rs): Argon2id encoded hash of
the password with the given salt under `passConfig`; an `argon2` error is
converted into `Error::Argon2Error` by the `#[from]` conversion. -/
def hash_password (password salt : String) : Except Error String :=
  match hash_encoded password salt passConfig with
  | .ok h => .ok h
  | .error e => .error (.Argon2Error e)

/-- `verify_password` (src/secure/hash_pass.rs). -/
def verify_password (password hash : String) : Except Error Bool :=
  match verify_encoded hash password with
  | .ok b => .ok b
  | .error e => .error (.Argon2Error e)

/-! ## Data model (src/models/mod.rs) -/

/-- `User`: a full row of the `users` table. -/
structure User where
  api_key : String
  user_id : String
  password : String
  email_id : String
  deriving DecidableEq, Repr

/-- `UserInfo`: the password-free view returned by every read. -/
structure UserInfo where
  api_key : String
  user_id : String
  email_id : String
  deriving DecidableEq, Repr

/-- `NewUser`: the creation request. -/
structure NewUser where
  user_id : String
  password : String
  email_id : String
  deriving DecidableEq, Repr

/-- `UpdateUser`: the partial update request. -/
structure UpdateUser where
  password : Option String
  api_key : Option String
  deriving DecidableEq, Repr

/-- The columns `sqlx::query_as::<_, UserInfo>` keeps from a row. -/
def User.info (u : User) : UserInfo :=
  { api_key := u.api_key, user_id := u.user_id, email_id := u.email_id }

/-- The `users` table: rows in storage order. -/
abbrev Table := List User

/-! ## Model of the missing token module

`src/secure/token.rs` is not in the source tree; only its caller
(`create_user` in src/db/mod.rs) is. -/

/-- Modelled from the spec: `generate_api_string` (`ApiKeyIssuer.issue`,
spec section 4.2) — a deterministic derivation from a seed value into an
opaque printable token, no error conditions, always a non-empty string. -/
def generate_api_string (seed : String) : String :=
  "ak" ++ seed

/-! ## AccountStore (src/db/mod.rs)

Each operation takes the current table and returns its result together
with the table after the statement(s) ran, so that writes performed
before an early return are visible. `fetch_optional` returns the first
row the WHERE clause matches, in storage order. -/

/-- `get_user_with_apikey` (src/db/mod.rs):
`SELECT * FROM users WHERE api_key = ?`, `NotFound("User")` on a miss. -/
def get_user_with_apikey (db : Table) (api_key : String) :
    Except Error UserInfo :=
  match db.find? (fun u => u.api_key == api_key) with
  | some u => .ok u.info
  | none => .error (.NotFound "User")

/-- `get_user_with_id` (src/db/mod.rs):
`SELECT * FROM users WHERE user_id = ?`, `NotFound("User")` on a miss. -/
def get_user_with_id (db : Table) (user_id : String) :
    Except Error UserInfo :=
  match db.find? (fun u => u.user_id == user_id) with
  | some u => .ok u.info
  | none => .error (.NotFound "User")

/-- `create_user` (src/db/mod.rs). The `subsec_nanos` of the wall clock
taken at the top of the function is passed in as `nanos`. The INSERT is
rejected by the `user_id` primary-key constraint when a row with the same
`user_id` exists, surfacing as the wrapped driver error
(`Error::PoolError`) via the `?` on `execute`. -/
def create_user (db : Table) (user : NewUser) (salt : String) (nanos : Nat) :
    Except Error User × Table :=
  match hash_password user.password salt with
  | .error e => (.error e, db)
  | .ok password =>
    match verify_password user.password password with
    | .ok verified =>
      if !verified then (.error .PasswordHashError, db)
      else
        let new_user : User :=
          { user_id := user.user_id, password := password,
            api_key := generate_api_string (Nat.repr nanos),
            email_id := user.email_id }
        if db.any (fun u => u.user_id == new_user.user_id) then
          (.error (.PoolError .uniqueViolation), db)
        else
          (.ok new_user, db ++ [new_user])
    | .error _ => (.error .PasswordHashError, db)

/-- `UPDATE users SET password = ? WHERE user_id = ?`. -/
def setPassword (db : Table) (user_id value : String) : Table :=
  db.map fun u => if u.user_id == user_id then { u with password := value } else u

/-- `UPDATE users SET api_key = ? WHERE user_id = ?`. -/
def setApiKey (db : Table) (user_id value : String) : Table :=
  db.map fun u => if u.user_id == user_id then { u with api_key := value } else u

/-- The `if let Some(api_key) = user.api_key` tail of `update_user`. -/
def applyKeyUpdate (db : Table) (user_id : String) : Option String → Table
  | some key => setApiKey db user_id key
  | none => db

/-- `update_user` (src/db/mod.rs). Faithful to the source, including the
binding of the UPDATE statement in the password branch: the statement
binds `pass` — the plaintext argument — while the computed encoded hash
`password` is only used for the self-verification and then discarded. -/
def update_user (db : Table) (user : UpdateUser) (user_id salt : String) :
    Except Error Unit × Table :=
  if user.api_key.isNone && user.password.isNone then
    (.error (.BadRequest "No data to update"), db)
  else
    match get_user_with_id db user_id with
    | .error _ => (.error (.NotFound "User"), db)
    | .ok _ =>
      match user.password with
      | none => (.ok (), applyKeyUpdate db user_id user.api_key)
      | some pass =>
        match hash_password pass salt with
        | .error e => (.error e, db)
        | .ok password =>
          match verify_password pass password with
          | .ok verified =>
            if !verified then (.error .PasswordHashError, db)
            else
              (.ok (), applyKeyUpdate (setPassword db user_id pass)
                user_id user.api_key)
          | .error _ => (.error .PasswordHashError, db)

/-- `delete_user` (src/db/mod.rs): `DELETE FROM users WHERE user_id = ?`,
then `NotFound("User")` when `rows_affected` is zero. -/
def delete_user (db : Table) (user_id : String) : Except Error Unit × Table :=
  let rows_affected := db.countP (fun u => u.user_id == user_id)
  if rows_affected > 0 then
    (.ok (), db.filter (fun u => !(u.user_id == user_id)))
  else
    (.error (.NotFound "User"), db)

/-- `get_all_users` (src/db/mod.rs): `SELECT * FROM users`. -/
def get_all_users (db : Table) : Except Error (List UserInfo) :=
  .ok (db.map User.info)

/-! ## AuthResolver (src/secure/guards/mod.rs)

The raw `lambda_http::Request` is modelled by its header list; header
values are carried as strings (the model treats `HeaderValue::to_str` as
always succeeding). -/

/-- A raw request: headers in arrival order, as (name, value) pairs. -/
structure Request where
  headers : List (String × String)
  deriving DecidableEq, Repr

/-- ASCII lowercasing of one character, as the `http` crate normalises
header names. -/
def lowerChar (c : Char) : Char :=
  if c.isUpper then Char.ofNat (c.toNat + 32) else c

/-- ASCII lowercasing of a header name. -/
def lowerStr (s : String) : String :=
  ⟨s.data.map lowerChar⟩

/-- Rust `str::trim`: remove leading and trailing whitespace. -/
def rustTrim (s : String) : String :=
  ⟨((s.data.dropWhile Char.isWhitespace).reverse.dropWhile
      Char.isWhitespace).reverse⟩

/-- Rust `str::split(sep)` on a character separator: never empty, keeps
empty segments, `[""]` on the empty string. -/
def splitChar (sep : Char) : List Char → List (List Char)
  | [] => [[]]
  | c :: cs =>
    if c = sep then [] :: splitChar sep cs
    else
      match splitChar sep cs with
      | [] => [[c]]
      | h :: t => (c :: h) :: t

/-- `HeaderMap::get` of the `http` crate: the name comparison is
case-insensitive; the first matching header wins. -/
def headerGet (req : Request) (name : String) : Option String :=
  (req.headers.find? (fun p => lowerStr p.1 == lowerStr name)).map (·.2)

/-- `std::net::IpAddr`, restricted to the IPv4 form the development
exercises. -/
inductive IpAddr where
  | v4 (a b c d : Nat)
  deriving DecidableEq, Repr

/-- One dotted-quad octet as `std` parses it: decimal digits only, no
leading zero, value at most 255. -/
def parseOctet (cs : List Char) : Option Nat :=
  if cs.isEmpty || !(cs.all Char.isDigit) then none
  else if decide (1 < cs.length) && (cs.headD '0' == '0') then none
  else
    let n := cs.foldl (fun acc c => acc * 10 + (c.toNat - 48)) 0
    if n ≤ 255 then some n else none

/-- Model of `IpAddr::from_str`, covering IPv4 dotted-quad literals;
every other string (including the IPv6 forms, which nothing in the
repository produces) is rejected. -/
def parseIp (s : String) : Option IpAddr :=
  match (splitChar '.' s.data).map parseOctet with
  | [some a, some b, some c, some d] => some (.v4 a b c d)
  | _ => none

/-- `get_client_ip` (src/secure/guards/mod.rs). When `X-Forwarded-For`
is present the function always returns out of that branch:
`ip_str.split(',').next()` is `Some` for every string, so the first
comma-separated entry is parsed and `X-Real-IP` is never consulted.
Only when the header is absent does it fall back to `X-Real-IP`, and
finally to `ForbiddenAccess`. -/
def get_client_ip (req : Request) : Except Error IpAddr :=
  match headerGet req "X-Forwarded-For" with
  | some ip_str =>
    match parseIp ⟨(splitChar ',' ip_str.data).headD []⟩ with
    | some ip => .ok ip
    | none => .error .ForbiddenAccess
  | none =>
    match headerGet req "X-Real-IP" with
    | some ip_str =>
      match parseIp ip_str with
      | some ip => .ok ip
      | none => .error .ForbiddenAccess
    | none => .error .ForbiddenAccess

/-- `GuardedData` (src/secure/guards/mod.rs). -/
structure GuardedData (T : Type) where
  inner : T
  ip : IpAddr
  deriving DecidableEq, Repr

/-- `get_user_from_request` (src/secure/guards/mod.rs): extract the
`x-api-key` header (absence is `UnauthenticatedUser`), trim it, look the
key up via `get_user_with_apikey` — whose error propagates unchanged via
`?` — then resolve the client origin. -/
def get_user_from_request (req : Request) (db : Table) :
    Except Error (GuardedData UserInfo) :=
  match (headerGet req "x-api-key").map rustTrim with
  | none => .error .UnauthenticatedUser
  | some api_key =>
    match get_user_with_apikey db api_key with
    | .error e => .error e
    | .ok user =>
      match get_client_ip req with
      | .error e => .error e
      | .ok ip => .ok { inner := user, ip := ip }

/-! ## Sample rows used by concrete instances -/

/-- A stored account used by concrete instances. -/
def alice : User :=
  { api_key := "k1", user_id := "alice", password := "oldhash",
    email_id := "a@x.com" }

/-- A second stored account. -/
def bob : User :=
  { api_key := "k2", user_id := "bob", password := "bobhash",
    email_id := "b@x.com" }

/-! ## Structure of the encoded hash -/

theorem argon2Header_eq :
    argon2Header passConfig = "$argon2id$v=19$m=65536,t=10,p=4$" := by decide

theorem dropSegs_header (tail : List Char) :
    dropSegs 4 ((argon2Header passConfig).data ++ tail) = some tail := by
  rw [argon2Header_eq]
  simp [dropSegs]

theorem readMark_replicate (n : Nat) (rest : List Char) :
    readMark (List.replicate n 'x' ++ '$' :: rest) = (n, '$' :: rest) := by
  induction n with
  | zero => rfl
  | succ n ih => simp [List.replicate_succ, readMark, ih]

/-- Decoding is exact on every encoded hash `hash_password` can produce:
the embedded salt and digest come back unchanged. -/
theorem splitEncoded_encodedHash (p s : String) :
    splitEncoded (encodedHash p s passConfig) = some (s, argon2Digest p s) := by
  have hdata : (encodedHash p s passConfig).data =
      (argon2Header passConfig).data ++
        (List.replicate s.length 'x' ++ '$' ::
          (s.data ++ '$' :: (argon2Digest p s).data)) := by
    simp [encodedHash, saltMark, List.append_assoc]
  have hlen : s.data.length = s.length := rfl
  have h1 := readMark_replicate s.length (s.data ++ '$' :: (argon2Digest p s).data)
  simp [splitEncoded, hdata, dropSegs_header, h1,
    List.drop_left' hlen, List.take_left' hlen]

/-- The idealised digest distinguishes passwords under a fixed salt. -/
theorem argon2Digest_inj {p1 p2 s : String}
    (h : argon2Digest p1 s = argon2Digest p2 s) : p1 = p2 := by
  have hd : p1.data ++ ('$' :: s.data) = p2.data ++ ('$' :: s.data) := by
    simpa [argon2Digest] using congrArg String.data h
  have := List.append_cancel_right hd
  exact String.ext this

/-- `hash_password` succeeds exactly when the salt is long enough, and
then returns the encoded hash. -/
theorem hash_password_ok {p s hsh : String}
    (h : hash_password p s = .ok hsh) :
    8 ≤ s.length ∧ hsh = encodedHash p s passConfig := by
  unfold hash_password hash_encoded at h
  by_cases hs : s.length < 8
  · simp [hs] at h
  · simp [hs] at h
    exact ⟨Nat.le_of_not_lt hs, h.symm⟩

/-- The self-check in the write paths always passes: a password verifies
against its own fresh hash. -/
theorem verify_encodedHash_self (p s : String) :
    verify_password p (encodedHash p s passConfig) = .ok true := by
  simp [verify_password, verify_encoded, splitEncoded_encodedHash]

/-- A different password fails cleanly against the hash. -/
theorem verify_encodedHash_ne {p1 p2 s : String} (h : p2 ≠ p1) :
    verify_password p2 (encodedHash p1 s passConfig) = .ok false := by
  have hne : argon2Digest p1 s ≠ argon2Digest p2 s :=
    fun he => h (argon2Digest_inj he).symm
  simp [verify_password, verify_encoded, splitEncoded_encodedHash, hne]

/-- **C8.** For every password `p` and every salt `s` the hasher accepts
(i.e. `hash_password p s` returns `.ok`), verifying `p` against the
produced encoded hash returns `true`; and for every `p2 ≠ p`, verifying
`p2` against that hash returns `false`. -/
theorem hash_verify_roundtrip (p s hsh : String)
    (hok : hash_password p s = .ok hsh) :
    verify_password p hsh = .ok true ∧
      ∀ p2, p2 ≠ p → verify_password p2 hsh = .ok false := by
  obtain ⟨-, rfl⟩ := hash_password_ok hok
  exact ⟨verify_encodedHash_self p s, fun p2 h2 => verify_encodedHash_ne h2⟩

/-- Witness for `hash_verify_roundtrip` at a concrete password and salt. -/
theorem hash_verify_roundtrip_witness :
    verify_password "abc"
        "$argon2id$v=19$m=65536,t=10,p=4$xxxxxxxx$saltsalt$abc$saltsalt" = .ok true ∧
      verify_password "abd"
        "$argon2id$v=19$m=65536,t=10,p=4$xxxxxxxx$saltsalt$abc$saltsalt" = .ok false :=
  ⟨(hash_verify_roundtrip "abc" "saltsalt"
      "$argon2id$v=19$m=65536,t=10,p=4$xxxxxxxx$saltsalt$abc$saltsalt" rfl).1,
   (hash_verify_roundtrip "abc" "saltsalt"
      "$argon2id$v=19$m=65536,t=10,p=4$xxxxxxxx$saltsalt$abc$saltsalt" rfl).2
     "abd" (by decide)⟩

/-- **C1** (code bug in `update_user`). With a new password present the
update succeeds, but the value written to the password column is the
plaintext `pass` itself — the UPDATE statement binds `pass`, while the
encoded hash the function computed and self-verified is discarded. At
this input the stored password becomes `"p@ss"` verbatim, and the hash
the code computed is a different string. -/
theorem update_user_stores_plaintext :
    update_user [alice] { password := some "p@ss", api_key := none }
        "alice" "saltsalt" =
      (.ok (), [{ api_key := "k1", user_id := "alice", password := "p@ss",
                  email_id := "a@x.com" }]) ∧
      hash_password "p@ss" "saltsalt" =
        .ok "$argon2id$v=19$m=65536,t=10,p=4$xxxxxxxx$saltsalt$p@ss$saltsalt" ∧
      ("p@ss" : String) ≠
        "$argon2id$v=19$m=65536,t=10,p=4$xxxxxxxx$saltsalt$p@ss$saltsalt" :=
  ⟨rfl, rfl, by decide⟩

/-- **C2** (counterexample to the stated error kind). Creating a user
whose `user_id` already exists leaves the pre-existing row unmodified,
but the failure is the wrapped driver error `PoolError` — mapped to
HTTP 500 — not a dedicated duplicate-key/conflict kind such as
`UserConflict` (HTTP 400). -/
theorem create_user_duplicate_not_conflict :
    create_user [alice]
        { user_id := "alice", password := "pw2", email_id := "b@x.com" }
        "saltsalt" 5 =
      (.error (.PoolError .uniqueViolation), [alice]) ∧
    (Error.PoolError .uniqueViolation).to_status = 500 ∧
    Error.PoolError .uniqueViolation ≠ Error.UserConflict :=
  ⟨rfl, rfl, by decide⟩

/-- **C2** (amended). For every store containing a row with the requested
`user_id` and every salt the hasher accepts, `create_user` fails with
the wrapped driver error for the primary-key collision and returns the
table unchanged: the pre-existing row is unmodified. -/
theorem create_user_duplicate (db : Table) (user : NewUser) (salt : String)
    (nanos : Nat) (hdup : ∃ u ∈ db, u.user_id = user.user_id)
    (hsalt : 8 ≤ salt.length) :
    create_user db user salt nanos =
      (.error (.PoolError .uniqueViolation), db) := by
  have hnl : ¬ salt.length < 8 := Nat.not_lt.mpr hsalt
  have hhash : hash_password user.password salt =
      .ok (encodedHash user.password salt passConfig) := by
    simp [hash_password, hash_encoded, hnl]
  have hver := verify_encodedHash_self user.password salt
  have hany : db.any (fun u => u.user_id == user.user_id) = true := by
    rw [List.any_eq_true]
    obtain ⟨u, hu, hid⟩ := hdup
    exact ⟨u, hu, by simpa using hid⟩
  simp [create_user, hhash, hver, hany]

/-- Witness for `create_user_duplicate` at a concrete store. -/
theorem create_user_duplicate_witness :
    create_user [bob]
        { user_id := "bob", password := "pw3", email_id := "c@x.com" }
        "pepper42" 7 = (.error (.PoolError .uniqueViolation), [bob]) :=
  create_user_duplicate [bob]
    { user_id := "bob", password := "pw3", email_id := "c@x.com" }
    "pepper42" 7 ⟨bob, by decide, rfl⟩ (by decide)

/-- **C3** (counterexample). A request whose credential header is present
but whose key matches no stored account resolves to `NotFound "User"` —
the store's not-found error propagated unchanged, carrying the
"resource not found" status 404 — not to an authentication-failure kind
(`UnauthenticatedUser`, 401, or `ForbiddenAccess`, 403). -/
theorem resolver_unknown_key_yields_not_found :
    get_user_from_request
        { headers := [("x-api-key", "wrong"), ("X-Forwarded-For", "1.2.3.4")] }
        [alice] = .error (.NotFound "User") ∧
    (Error.NotFound "User").to_status = 404 ∧
    Error.NotFound "User" ≠ Error.UnauthenticatedUser ∧
    Error.NotFound "User" ≠ Error.ForbiddenAccess ∧
    (Error.NotFound "User").to_status ≠ (Error.UnauthenticatedUser).to_status ∧
    (Error.NotFound "User").to_status ≠ (Error.ForbiddenAccess).to_status :=
  ⟨rfl, rfl, by decide, by decide, by decide, by decide⟩

/-- **C3** (amended). For every request whose credential header is
present but whose (trimmed) key matches no stored account, the resolver
propagates the store's `NotFound "User"` error unchanged; the unknown-key
case is surfaced as "resource not found", not converted into an
authentication-failure kind. -/
theorem resolver_propagates_not_found (req : Request) (db : Table) (v : String)
    (hv : headerGet req "x-api-key" = some v)
    (hmiss : ∀ u ∈ db, u.api_key ≠ rustTrim v) :
    get_user_from_request req db = .error (.NotFound "User") := by
  have hfind : db.find? (fun u => u.api_key == rustTrim v) = none := by
    rw [List.find?_eq_none]
    intro u hu
    simpa using hmiss u hu
  simp [get_user_from_request, hv, get_user_with_apikey, hfind]

/-- Witness for `resolver_propagates_not_found`. -/
theorem resolver_propagates_not_found_witness :
    get_user_from_request { headers := [("x-api-key", " nosuch ")] }
        [alice, bob] = .error (.NotFound "User") :=
  resolver_propagates_not_found
    { headers := [("x-api-key", " nosuch ")] } [alice, bob] " nosuch "
    rfl (by decide)

/-- **C4** (counterexample). The unknown-key leg of the authentication
gate does not fail with a denial kind: it fails with `NotFound`, whose
status 404 is neither 401 nor 403 (here the credential header is given
in a different case, and a fallback origin header is present). -/
theorem auth_gate_unknown_key_not_denial :
    get_user_from_request
        { headers := [("X-API-KEY", "nokey"), ("X-Real-IP", "5.6.7.8")] }
        [bob] = .error (.NotFound "User") ∧
    ¬((Error.NotFound "User").to_status = 401 ∨
      (Error.NotFound "User").to_status = 403) :=
  ⟨rfl, by decide⟩

/-- **C4** (amended). The authentication gate never succeeds on bad
input: a missing credential header fails with `UnauthenticatedUser`; a
present header whose trimmed value matches no account fails with the
propagated `NotFound "User"` (not a denial kind); a valid credential
with an unresolvable origin fails with `ForbiddenAccess`; and the
credential is read from the fixed header name `x-api-key`,
case-insensitively, and trimmed before lookup. -/
theorem auth_gate_typed_failures (req : Request) (db : Table) (v : String)
    (u : UserInfo) :
    (headerGet req "x-api-key" = none →
      get_user_from_request req db = .error .UnauthenticatedUser) ∧
    (headerGet req "x-api-key" = some v → (∀ w ∈ db, w.api_key ≠ rustTrim v) →
      get_user_from_request req db = .error (.NotFound "User")) ∧
    (headerGet req "x-api-key" = some v →
      get_user_with_apikey db (rustTrim v) = .ok u →
      get_client_ip req = .error .ForbiddenAccess →
      get_user_from_request req db = .error .ForbiddenAccess) ∧
    (∀ rest, headerGet { headers := ("X-API-KEY", v) :: rest } "x-api-key"
      = some v) := by
  refine ⟨?_, ?_, ?_, ?_⟩
  · intro h
    simp [get_user_from_request, h]
  · intro hv hmiss
    have hfind : db.find? (fun w => w.api_key == rustTrim v) = none := by
      rw [List.find?_eq_none]
      intro w hw
      simpa using hmiss w hw
    simp [get_user_from_request, hv, get_user_with_apikey, hfind]
  · intro hv hu hip
    simp [get_user_from_request, hv, hu, hip]
  · intro rest
    simp only [headerGet, List.find?]
    rw [show (lowerStr "X-API-KEY" == lowerStr "x-api-key") = true from by decide]
    rfl

/-- Witness for `auth_gate_typed_failures`, one instance per leg. -/
theorem auth_gate_typed_failures_witness :
    get_user_from_request { headers := [] } [alice] =
      .error .UnauthenticatedUser ∧
    get_user_from_request
        { headers := [("x-api-key", "zzz"), ("X-Real-IP", "8.8.8.8")] }
        [alice] = .error (.NotFound "User") ∧
    get_user_from_request { headers := [("x-api-key", "k1")] } [alice] =
      .error .ForbiddenAccess ∧
    headerGet { headers := [("X-API-KEY", "k1")] } "x-api-key" = some "k1" :=
  ⟨(auth_gate_typed_failures { headers := [] } [alice] "" alice.info).1 rfl,
   (auth_gate_typed_failures
      { headers := [("x-api-key", "zzz"), ("X-Real-IP", "8.8.8.8")] }
      [alice] "zzz" alice.info).2.1 rfl (by decide),
   (auth_gate_typed_failures { headers := [("x-api-key", "k1")] }
      [alice] "k1" alice.info).2.2.1 rfl rfl rfl,
   (auth_gate_typed_failures { headers := [] } [alice] "k1"
      alice.info).2.2.2 []⟩

/-- **C5.** An update request with neither `password` nor `api_key` set
fails with `BadRequest("No data to update")` for every store state,
user id and salt, and the table is returned unchanged: the empty-fields
check fires before anything else runs. -/
theorem update_user_empty_bad_request (db : Table) (user_id salt : String) :
    update_user db { password := none, api_key := none } user_id salt =
      (.error (.BadRequest "No data to update"), db) := rfl

/-- **C9.** The empty-fields check precedes the existence check: even
when the `user_id` does not exist (reading it yields `NotFound`), an
update with both fields absent fails with `BadRequest`, not `NotFound`,
and performs no write. -/
theorem update_user_empty_precedes_existence (db : Table)
    (user_id salt : String)
    (_hmissing : get_user_with_id db user_id = .error (.NotFound "User")) :
    update_user db { password := none, api_key := none } user_id salt =
      (.error (.BadRequest "No data to update"), db) := rfl

/-- Witness for `update_user_empty_precedes_existence`: a `user_id`
absent from the store. -/
theorem update_user_empty_precedes_existence_witness :
    update_user [alice] { password := none, api_key := none }
        "ghost" "saltsalt" =
      (.error (.BadRequest "No data to update"), [alice]) :=
  update_user_empty_precedes_existence [alice] "ghost" "saltsalt" rfl

/-- **C6.** Deleting a `user_id` not present in the store fails with
`NotFound` (zero rows affected) and leaves the table unchanged; deleting
a present `user_id` succeeds, and reading that id from the resulting
table fails with `NotFound`. -/
theorem delete_user_correct (db : Table) (user_id : String) :
    ((∀ u ∈ db, u.user_id ≠ user_id) →
      delete_user db user_id = (.error (.NotFound "User"), db)) ∧
    ((∃ u ∈ db, u.user_id = user_id) →
      (delete_user db user_id).1 = .ok () ∧
      get_user_with_id (delete_user db user_id).2 user_id =
        .error (.NotFound "User")) := by
  constructor
  · intro h
    have h0 : db.countP (fun u => u.user_id == user_id) = 0 := by
      rw [List.countP_eq_zero]
      intro u hu
      simpa using h u hu
    simp [delete_user, h0]
  · rintro ⟨u, hu, hid⟩
    have hpos : 0 < db.countP (fun u => u.user_id == user_id) := by
      rw [List.countP_pos_iff]
      exact ⟨u, hu, by simpa using hid⟩
    have hnone : (db.filter (fun u => !(u.user_id == user_id))).find?
        (fun u => u.user_id == user_id) = none := by
      rw [List.find?_eq_none]
      intro x hx
      simpa using (List.mem_filter.mp hx).2
    constructor
    · simp [delete_user, hpos]
    · simp [delete_user, hpos, get_user_with_id, hnone]

/-- Witness for `delete_user_correct`: both legs at concrete stores. -/
theorem delete_user_correct_witness :
    delete_user [alice] "bob" = (.error (.NotFound "User"), [alice]) ∧
      (delete_user [alice] "alice").1 = .ok () ∧
      get_user_with_id (delete_user [alice] "alice").2 "alice" =
        .error (.NotFound "User") :=
  ⟨(delete_user_correct [alice] "bob").1 (by decide),
   (delete_user_correct [alice] "alice").2 ⟨alice, by decide, rfl⟩⟩

/-- **C7.** A successful update carrying only `api_key` rewrites exactly
the `api_key` column of the rows matching the `user_id` and nothing
else: the resulting table is the row-wise update, and the stored
password and email columns are unchanged across the whole table. -/
theorem update_user_key_only_frame (db : Table) (user_id key salt : String)
    (h : ∃ u ∈ db, u.user_id = user_id) :
    update_user db { password := none, api_key := some key } user_id salt =
      (.ok (), db.map fun u =>
        if u.user_id == user_id then { u with api_key := key } else u) ∧
    (update_user db { password := none, api_key := some key }
        user_id salt).2.map User.password = db.map User.password ∧
    (update_user db { password := none, api_key := some key }
        user_id salt).2.map User.email_id = db.map User.email_id := by
  obtain ⟨u, hu, hid⟩ := h
  have hsome : (db.find? fun w => w.user_id == user_id).isSome := by
    rw [List.find?_isSome]
    exact ⟨u, hu, by simpa using hid⟩
  obtain ⟨w, hw⟩ := Option.isSome_iff_exists.mp hsome
  have hmain : update_user db { password := none, api_key := some key }
      user_id salt = (.ok (), setApiKey db user_id key) := by
    simp [update_user, get_user_with_id, hw, applyKeyUpdate]
  have hpass : ∀ x : User,
      ((if x.user_id == user_id then { x with api_key := key } else x) :
        User).password = x.password := by
    intro x
    split <;> rfl
  have hmail : ∀ x : User,
      ((if x.user_id == user_id then { x with api_key := key } else x) :
        User).email_id = x.email_id := by
    intro x
    split <;> rfl
  refine ⟨by rw [hmain]; rfl, ?_, ?_⟩
  · rw [hmain]
    simp only [setApiKey, List.map_map, Function.comp]
    exact List.map_congr_left fun a _ => hpass a
  · rw [hmain]
    simp only [setApiKey, List.map_map, Function.comp]
    exact List.map_congr_left fun a _ => hmail a

/-- Witness for `update_user_key_only_frame` at a two-row store. -/
theorem update_user_key_only_frame_witness :
    update_user [alice, bob] { password := none, api_key := some "newkey" }
        "alice" "saltsalt" =
      (.ok (), [{ api_key := "newkey", user_id := "alice",
                  password := "oldhash", email_id := "a@x.com" }, bob]) :=
  ((update_user_key_only_frame [alice, bob] "alice" "newkey" "saltsalt"
      ⟨alice, by decide, rfl⟩).1).trans rfl

/-- **C10.** When `X-Forwarded-For` is present but its first
comma-separated entry does not parse as an IP address, origin resolution
fails with `ForbiddenAccess` — for every such request, including any
whose `X-Real-IP` holds a valid address, since the fallback header is
never consulted. -/
theorem client_ip_first_forwarded_entry_only (req : Request) (v : String)
    (hv : headerGet req "X-Forwarded-For" = some v)
    (hbad : parseIp ⟨(splitChar ',' v.data).headD []⟩ = none) :
    get_client_ip req = .error .ForbiddenAccess := by
  simp only [get_client_ip, hv]
  rw [hbad]

/-- Witness for `client_ip_first_forwarded_entry_only`: the fallback
header carries a valid address, yet resolution fails. -/
theorem client_ip_first_forwarded_entry_only_witness :
    get_client_ip
        { headers := [("X-Forwarded-For", "not-an-ip,9.9.9.9"),
                      ("X-Real-IP", "1.2.3.4")] } =
      .error .ForbiddenAccess ∧
    parseIp "1.2.3.4" = some (.v4 1 2 3 4) :=
  ⟨client_ip_first_forwarded_entry_only
      { headers := [("X-Forwarded-For", "not-an-ip,9.9.9.9"),
                    ("X-Real-IP", "1.2.3.4")] }
      "not-an-ip,9.9.9.9" rfl (by decide),
   by decide⟩

end ApiServer
